import Mathlib

/-!
# Verification of `Project_2_VQE_Molecules/S3_Unitary_Ansatz.ipynb`

The repository's only source file is a Jupyter notebook of five code cells
that drive two VQE workflows (UCC and QCC) through library calls
(`tequila`, and the routines star-imported from the `utility` module).
The notebook contains no function definitions, no control flow beyond two
`for ... print` loops, and no exception handling: every statement is an
import, an assignment whose right-hand side is built from literals,
previously bound names, attribute accesses and library calls, or a print.

We embed the notebook deeply:

* `Lit` / `Expr` / `Stmt` — the expression and statement language actually
  used by the notebook (plus a `defFun` and a `tryAssign` constructor so
  that "the notebook defines no function" and "no call is wrapped in a
  handler" are falsifiable statements about the data, not vacuities of the
  grammar);
* `cell1`, `cell3`, `cell5`, `cell7`, `cell9` — the five code cells,
  transcribed statement by statement from the source;
* `resolve` / `symExec` — a symbolic resolver substituting earlier
  bindings, giving each bound name its fully resolved call tree;
* `Lib` / `evalExpr` / `runStmts` — an interpreter parameterized by an
  abstract library oracle, used for the error-propagation and determinism
  claims.

Floating literals are modelled as mantissa/exponent pairs (`Lit.sci m e`
denotes `m * 10 ^ e`); the notebook's `1e-6` and `1.e-6` both denote the
float 1e-6 and are both rendered `Lit.sci 1 (-6)`.
-/

/-- Literal constants occurring in the notebook. `sci m e` models the
float literal `m * 10 ^ e` (so `1e-6` is `sci 1 (-6)` and `0.0` is
`sci 0 0`). -/
inductive Lit where
  | str : String → Lit
  | int : Int → Lit
  | sci : Int → Int → Lit
  | bool : Bool → Lit
deriving DecidableEq, Repr

/-- Expressions of the notebook: literals, names, attribute access,
function calls of arity 0–4 (each argument with an optional keyword),
method calls of arity 0 and 3, `+`, `*`, and the dict comprehension
`\x7b k : lit for k in e \x7d` (`dictConst e lit`). -/
inductive Expr where
  | lit : Lit → Expr
  | var : String → Expr
  | attr : Expr → String → Expr
  | call0 : String → Expr
  | call1 : String → Option String → Expr → Expr
  | call2 : String → Option String → Expr → Option String → Expr → Expr
  | call3 : String → Option String → Expr → Option String → Expr →
      Option String → Expr → Expr
  | call4 : String → Option String → Expr → Option String → Expr →
      Option String → Expr → Option String → Expr → Expr
  | mcall0 : Expr → String → Expr
  | mcall3 : Expr → String → Option String → Expr → Option String → Expr →
      Option String → Expr → Expr
  | add : Expr → Expr → Expr
  | mul : Expr → Expr → Expr
  | dictConst : Expr → Lit → Expr
deriving DecidableEq, Repr

/-- Statements of the notebook: imports, assignments, prints and
print-loops. `defFun` (a function definition) and `tryAssign`
(an assignment whose call is wrapped in an exception handler that
swallows the error) do NOT occur in the notebook; they are present in the
grammar so their absence is a checkable property of the cell data. -/
inductive Stmt where
  | importAs : String → String → Stmt
  | importStar : String → Stmt
  | assign : String → Expr → Stmt
  | printStr : String → Stmt
  | printLoop : String → Expr → Stmt
  | defFun : String → Stmt
  | tryAssign : String → Expr → Stmt
deriving DecidableEq, Repr

/-- First code cell: imports and the shared constants
`threshold = 1e-6`, `basis = 'sto-3g'`. -/
def cell1 : List Stmt :=
  [ .importAs "numpy" "np",
    .importAs "tequila" "tq",
    .importStar "utility",
    .assign "threshold" (.lit (.sci 1 (-6))),
    .assign "basis" (.lit (.str "sto-3g")) ]

/-- Second code cell: `trotter_steps = 1`. -/
def cell3 : List Stmt :=
  [ .assign "trotter_steps" (.lit (.int 1)) ]

/-- Third code cell: the UCC VQE workflow. -/
def cell5 : List Stmt :=
  [ .assign "xyz_data"
      (.call3 "get_molecular_data"
        none (.lit (.str "h2"))
        (some "geometry") (.lit (.int 2))
        (some "xyz_format") (.lit (.bool true))),
    .assign "molecule"
      (.call2 "tq.quantumchemistry.Molecule"
        (some "geometry") (.var "xyz_data")
        (some "basis_set") (.var "basis")),
    .assign "H" (.mcall0 (.var "molecule") "make_hamiltonian"),
    .assign "U_UCCSD"
      (.mcall3 (.var "molecule") "make_uccsd_ansatz"
        (some "initial_amplitudes") (.lit (.str "mp2"))
        (some "threshold") (.var "threshold")
        (some "trotter_steps") (.var "trotter_steps")),
    .assign "E"
      (.call2 "tq.ExpectationValue"
        (some "H") (.var "H")
        (some "U") (.var "U_UCCSD")),
    .assign "result"
      (.call4 "tq.minimize"
        (some "objective") (.var "E")
        (some "method") (.lit (.str "BFGS"))
        (some "initial_values")
          (.dictConst (.mcall0 (.var "E") "extract_variables") (.sci 0 0))
        (some "tol") (.lit (.sci 1 (-6)))) ]

/-- Fourth code cell: QCC setup and gradient ranking of entanglers. -/
def cell7 : List Stmt :=
  [ .assign "xyz_data"
      (.call3 "get_molecular_data"
        none (.lit (.str "h2"))
        (some "geometry") (.lit (.int 2))
        (some "xyz_format") (.lit (.bool true))),
    .assign "molecule"
      (.call2 "tq.quantumchemistry.Molecule"
        (some "geometry") (.var "xyz_data")
        (some "basis_set") (.var "basis")),
    .assign "hf_reference"
      (.call2 "hf_occ"
        none (.mul (.lit (.int 2)) (.attr (.var "molecule") "n_orbitals"))
        none (.attr (.var "molecule") "n_electrons")),
    .assign "H" (.mcall0 (.var "molecule") "make_hamiltonian"),
    .assign "n_ents" (.lit (.int 1)),
    .assign "ranked_entangler_groupings"
      (.call4 "generate_QCC_gradient_groupings"
        none (.mcall0 (.var "H") "to_openfermion")
        none (.mul (.lit (.int 2)) (.attr (.var "molecule") "n_orbitals"))
        none (.var "hf_reference")
        (some "cutoff") (.var "threshold")),
    .printStr "Grouping gradient magnitudes:",
    .printLoop "grouping" (.var "ranked_entangler_groupings"),
    .assign "entanglers"
      (.call3 "get_QCC_entanglers"
        none (.var "ranked_entangler_groupings")
        none (.var "n_ents")
        none (.mul (.lit (.int 2)) (.attr (.var "molecule") "n_orbitals"))),
    .printStr "\nGenerated entanglers:",
    .printLoop "ent" (.var "entanglers") ]

/-- Fifth code cell: the QCC VQE workflow. -/
def cell9 : List Stmt :=
  [ .assign "U_MF"
      (.call1 "construct_QMF_ansatz"
        (some "n_qubits")
        (.mul (.lit (.int 2)) (.attr (.var "molecule") "n_orbitals"))),
    .assign "U_ENT" (.call1 "construct_QCC_ansatz" none (.var "entanglers")),
    .assign "U_QCC" (.add (.var "U_MF") (.var "U_ENT")),
    .assign "E"
      (.call2 "tq.ExpectationValue"
        (some "H") (.var "H")
        (some "U") (.var "U_QCC")),
    .assign "initial_vals"
      (.call2 "init_qcc_params"
        none (.var "hf_reference")
        none (.mcall0 (.var "E") "extract_variables")),
    .assign "result"
      (.call4 "tq.minimize"
        (some "objective") (.var "E")
        (some "method") (.lit (.str "BFGS"))
        (some "initial_values") (.var "initial_vals")
        (some "tol") (.lit (.sci 1 (-6)))) ]

/-- The notebook's code cells in order; the sixth code cell of the
notebook is empty. -/
def codeCells : List (List Stmt) := [cell1, cell3, cell5, cell7, cell9, []]

/-- All statements of the notebook in execution order. -/
def allStmts : List Stmt := cell1 ++ cell3 ++ cell5 ++ cell7 ++ cell9

/-- A symbolic environment: names bound to fully resolved expressions,
newest binding first (so re-assignment shadows). -/
abbrev SymEnv := List (String × Expr)

/-- Substitute every bound name of `env` in an expression, producing the
fully resolved call tree the notebook built for it. -/
def resolve (env : SymEnv) : Expr → Expr
  | .lit l => .lit l
  | .var x =>
      match env.lookup x with
      | some v => v
      | none => .var x
  | .attr e a => .attr (resolve env e) a
  | .call0 f => .call0 f
  | .call1 f k1 a1 => .call1 f k1 (resolve env a1)
  | .call2 f k1 a1 k2 a2 => .call2 f k1 (resolve env a1) k2 (resolve env a2)
  | .call3 f k1 a1 k2 a2 k3 a3 =>
      .call3 f k1 (resolve env a1) k2 (resolve env a2) k3 (resolve env a3)
  | .call4 f k1 a1 k2 a2 k3 a3 k4 a4 =>
      .call4 f k1 (resolve env a1) k2 (resolve env a2) k3 (resolve env a3)
        k4 (resolve env a4)
  | .mcall0 o m => .mcall0 (resolve env o) m
  | .mcall3 o m k1 a1 k2 a2 k3 a3 =>
      .mcall3 (resolve env o) m k1 (resolve env a1) k2 (resolve env a2)
        k3 (resolve env a3)
  | .add a b => .add (resolve env a) (resolve env b)
  | .mul a b => .mul (resolve env a) (resolve env b)
  | .dictConst e l => .dictConst (resolve env e) l

/-- Symbolic effect of one statement on the environment. -/
def symExec (env : SymEnv) : Stmt → SymEnv
  | .assign x e => (x, resolve env e) :: env
  | .tryAssign x e => (x, resolve env e) :: env
  | _ => env

/-- Symbolic run of a list of statements. -/
def symRun (env : SymEnv) (ss : List Stmt) : SymEnv := ss.foldl symExec env

/-- Environment after the UCC workflow (cells 1, 3 and 5). -/
def uccEnv : SymEnv := symRun [] (cell1 ++ cell3 ++ cell5)

/-- Environment after the QCC ranking cell (cell 7). -/
def envAfterCell7 : SymEnv := symRun uccEnv cell7

/-- Environment after the whole notebook. -/
def qccEnv : SymEnv := symRun envAfterCell7 cell9

/-! ## Resolved expressions of the notebook, named for the theorems.

Each of these is the full call tree the notebook builds for the
corresponding variable; the theorems check them against the symbolic run
of the transcribed cells. -/

/-- `get_molecular_data('h2', geometry=2, xyz_format=True)`. -/
def xyzExpr : Expr :=
  .call3 "get_molecular_data"
    none (.lit (.str "h2"))
    (some "geometry") (.lit (.int 2))
    (some "xyz_format") (.lit (.bool true))

/-- `tq.quantumchemistry.Molecule(geometry=xyz_data, basis_set='sto-3g')`. -/
def moleculeExpr : Expr :=
  .call2 "tq.quantumchemistry.Molecule"
    (some "geometry") xyzExpr
    (some "basis_set") (.lit (.str "sto-3g"))

/-- `molecule.make_hamiltonian()`. -/
def hExpr : Expr := .mcall0 moleculeExpr "make_hamiltonian"

/-- `2 * molecule.n_orbitals`. -/
def nQubitsExpr : Expr :=
  .mul (.lit (.int 2)) (.attr moleculeExpr "n_orbitals")

/-- `hf_occ(2 * molecule.n_orbitals, molecule.n_electrons)`. -/
def hfRefExpr : Expr :=
  .call2 "hf_occ" none nQubitsExpr none (.attr moleculeExpr "n_electrons")

/-- `molecule.make_uccsd_ansatz(initial_amplitudes='mp2',
threshold=1e-6, trotter_steps=1)` (constants resolved). -/
def uccsdExpr : Expr :=
  .mcall3 moleculeExpr "make_uccsd_ansatz"
    (some "initial_amplitudes") (.lit (.str "mp2"))
    (some "threshold") (.lit (.sci 1 (-6)))
    (some "trotter_steps") (.lit (.int 1))

/-- The UCC objective `tq.ExpectationValue(H=H, U=U_UCCSD)`. -/
def uccObjExpr : Expr :=
  .call2 "tq.ExpectationValue" (some "H") hExpr (some "U") uccsdExpr

/-- `generate_QCC_gradient_groupings(H.to_openfermion(),
2*molecule.n_orbitals, hf_reference, cutoff=1e-6)` (resolved). -/
def rankedExpr : Expr :=
  .call4 "generate_QCC_gradient_groupings"
    none (.mcall0 hExpr "to_openfermion")
    none nQubitsExpr
    none hfRefExpr
    (some "cutoff") (.lit (.sci 1 (-6)))

/-- `get_QCC_entanglers(ranked_entangler_groupings, 1,
2*molecule.n_orbitals)` (resolved; `n_ents` resolved to `1`). -/
def entanglersExpr : Expr :=
  .call3 "get_QCC_entanglers"
    none rankedExpr none (.lit (.int 1)) none nQubitsExpr

/-- `construct_QMF_ansatz(n_qubits = 2*molecule.n_orbitals)` (resolved). -/
def qmfExpr : Expr :=
  .call1 "construct_QMF_ansatz" (some "n_qubits") nQubitsExpr

/-- `construct_QCC_ansatz(entanglers)` (resolved). -/
def qccEntExpr : Expr := .call1 "construct_QCC_ansatz" none entanglersExpr

/-- `U_QCC = U_MF + U_ENT` (resolved). -/
def qccUExpr : Expr := .add qmfExpr qccEntExpr

/-- The QCC objective `tq.ExpectationValue(H=H, U=U_QCC)`. -/
def qccObjExpr : Expr :=
  .call2 "tq.ExpectationValue" (some "H") hExpr (some "U") qccUExpr

/-- `init_qcc_params(hf_reference, E.extract_variables())` (resolved). -/
def qccInitValsExpr : Expr :=
  .call2 "init_qcc_params"
    none hfRefExpr none (.mcall0 qccObjExpr "extract_variables")

example : uccEnv.lookup "H" = some hExpr := by rfl
example : uccEnv.lookup "U_UCCSD" = some uccsdExpr := by rfl
example : uccEnv.lookup "E" = some uccObjExpr := by rfl
example : qccEnv.lookup "U_QCC" = some qccUExpr := by rfl
example : qccEnv.lookup "initial_vals" = some qccInitValsExpr := by rfl

/-! ## Pipeline stages (C1) -/

/-- The five pipeline stages of the spec's system overview. -/
inductive Stage where
  | geometry
  | hamiltonian
  | ansatz
  | expectation
  | minimize
deriving DecidableEq, Repr

/-- Head function (or method) name of an expression, when it is a call. -/
def headFn : Expr → Option String
  | .call0 f => some f
  | .call1 f _ _ => some f
  | .call2 f _ _ _ _ => some f
  | .call3 f _ _ _ _ _ _ => some f
  | .call4 f _ _ _ _ _ _ _ _ => some f
  | .mcall0 _ m => some m
  | .mcall3 _ m _ _ _ _ _ _ => some m
  | _ => none

/-- Stage a library call belongs to, per the spec's five-stage pipeline:
molecule configuration, Hamiltonian construction, ansatz construction,
expectation value, minimization. Calls outside the five stages
(`hf_occ`, the ranking calls, `init_qcc_params`, ...) map to `none`. -/
def stageOfFn (f : String) : Option Stage :=
  if f = "get_molecular_data" ∨ f = "tq.quantumchemistry.Molecule" then
    some .geometry
  else if f = "make_hamiltonian" then some .hamiltonian
  else if f = "make_uccsd_ansatz" ∨ f = "construct_QMF_ansatz" ∨
      f = "construct_QCC_ansatz" then some .ansatz
  else if f = "tq.ExpectationValue" then some .expectation
  else if f = "tq.minimize" then some .minimize
  else none

/-- Stage of a statement: the stage of the call on the right-hand side of
an assignment, if any. -/
def stageOfStmt : Stmt → Option Stage
  | .assign _ e => (headFn e).bind stageOfFn
  | _ => none

/-- Collapse consecutive equal stages (a stage may comprise several
calls, e.g. stage 1 is `get_molecular_data` plus the `Molecule`
constructor, and stage 3 of QCC is the QMF plus the QCC construction). -/
def dedupConsec : List Stage → List Stage
  | [] => []
  | [a] => [a]
  | a :: b :: r => if a = b then dedupConsec (b :: r) else a :: dedupConsec (b :: r)

/-- Sequence of pipeline stages realized by a list of statements. -/
def stageSeq (ss : List Stmt) : List Stage :=
  dedupConsec (ss.filterMap stageOfStmt)

example : stageSeq (cell1 ++ cell3 ++ cell5) =
    [.geometry, .hamiltonian, .ansatz, .expectation, .minimize] := by decide
example : stageSeq (cell7 ++ cell9) =
    [.geometry, .hamiltonian, .ansatz, .expectation, .minimize] := by decide

/-! ## Statement classification (C2, C3, C4, C5) -/

/-- Is the statement an assignment whose right-hand side is a
`tq.minimize` call? -/
def isMinimizeStmt (s : Stmt) : Bool :=
  match s with
  | .assign _ e => headFn e == some "tq.minimize"
  | _ => false

/-- All function and method names called inside an expression. -/
def callFns : Expr → List String
  | .lit _ => []
  | .var _ => []
  | .attr e _ => callFns e
  | .call0 f => [f]
  | .call1 f _ a1 => f :: callFns a1
  | .call2 f _ a1 _ a2 => f :: (callFns a1 ++ callFns a2)
  | .call3 f _ a1 _ a2 _ a3 => f :: (callFns a1 ++ callFns a2 ++ callFns a3)
  | .call4 f _ a1 _ a2 _ a3 _ a4 =>
      f :: (callFns a1 ++ callFns a2 ++ callFns a3 ++ callFns a4)
  | .mcall0 o m => m :: callFns o
  | .mcall3 o m _ a1 _ a2 _ a3 =>
      m :: (callFns o ++ callFns a1 ++ callFns a2 ++ callFns a3)
  | .add a b => callFns a ++ callFns b
  | .mul a b => callFns a ++ callFns b
  | .dictConst e _ => callFns e

/-- All function and method names called by a statement. -/
def stmtCallFns : Stmt → List String
  | .assign _ e => callFns e
  | .tryAssign _ e => callFns e
  | .printLoop _ e => callFns e
  | _ => []

/-- Every call name occurring anywhere in the notebook, in order. -/
def allCallFns : List String :=
  allStmts.foldr (fun s acc => stmtCallFns s ++ acc) []

/-- Names star-imported from the `utility` module
(`from utility import *`). -/
def utilityFns : List String :=
  ["get_molecular_data", "hf_occ", "generate_QCC_gradient_groupings",
   "get_QCC_entanglers", "construct_QMF_ansatz", "construct_QCC_ansatz",
   "init_qcc_params"]

/-- Names reached through the `tequila` import (`import tequila as tq`):
the `tq.*` calls and the methods of the objects they return. -/
def tequilaFns : List String :=
  ["tq.quantumchemistry.Molecule", "tq.ExpectationValue", "tq.minimize",
   "make_hamiltonian", "make_uccsd_ansatz", "to_openfermion",
   "extract_variables"]

/-- Module a called name comes from, per the notebook's import
statements. -/
def moduleOfFn (f : String) : Option String :=
  if utilityFns.contains f then some "utility"
  else if tequilaFns.contains f then some "tequila"
  else none

/-- Modelled from the spec: the source of the `utility` module (the file
providing `get_molecular_data`, `hf_occ`, the QCC ranking routines and
the QMF/QCC ansatz constructors) is not under `src/`; per the spec these
routines belong to the external library layer ("the hard parts ... are
performed entirely by library calls (`tequila`,
`openfermion`-compatible Hamiltonian objects, `scipy`-backed
optimizers)"), alongside `tequila` and the `scipy` backend it drives. -/
def externalLibraryModules : List String :=
  ["numpy", "tequila", "utility", "scipy", "openfermion"]

/-- The computational "hard parts" named by the spec: Hamiltonian
construction, Trotterization (inside `make_uccsd_ansatz`), gradient-based
entangler ranking, expectation-value evaluation, classical optimization. -/
def hardPartFns : List String :=
  ["make_hamiltonian", "make_uccsd_ansatz",
   "generate_QCC_gradient_groupings", "tq.ExpectationValue", "tq.minimize"]

/-- Does a called name resolve to an external library module? -/
def fnExternal (f : String) : Bool :=
  match moduleOfFn f with
  | some m => externalLibraryModules.contains m
  | none => false

/-- Is the statement a function definition? -/
def isDefFunStmt : Stmt → Bool
  | .defFun _ => true
  | _ => false

/-- Is the statement an exception-handling statement? -/
def isTryStmt : Stmt → Bool
  | .tryAssign _ _ => true
  | _ => false

/-- A "simple" statement: an import, an assignment of an expression, or a
print — no function definition, no handler. -/
def isSimpleStmt (s : Stmt) : Bool := !(isDefFunStmt s) && !(isTryStmt s)

/-- Does a code cell contain any statement at all? -/
def hasLogic (c : List Stmt) : Bool := !c.isEmpty

example : (allStmts.filter isMinimizeStmt).length = 2 := by decide
example : (allCallFns.filter hardPartFns.contains).all fnExternal = true := by decide
example : (codeCells.filter hasLogic).length = 5 := by decide

/-! ## Oracle-parameterized interpreter (C5, C6, C7) -/

/-- An abstract library: the behaviour of every operation the notebook
delegates. `V` is the type of library values. Each call may fail with an
error message (a raised exception). -/
structure Lib (V : Type) where
  call : String → List (Option String × V) → Except String V
  attr : V → String → Except String V
  mcall : V → String → List (Option String × V) → Except String V
  litV : Lit → V
  addV : V → V → Except String V
  mulV : V → V → Except String V
  dictV : V → Lit → V

/-- Evaluate an expression against a library oracle and an environment of
bound values. Failure of any sub-call propagates (the notebook never
catches). -/
def evalExpr {V : Type} (L : Lib V) (env : List (String × V)) :
    Expr → Except String V
  | .lit l => .ok (L.litV l)
  | .var x =>
      match env.lookup x with
      | some v => .ok v
      | none => .error ("NameError: " ++ x)
  | .attr e a => do
      let v ← evalExpr L env e
      L.attr v a
  | .call0 f => L.call f []
  | .call1 f k1 a1 => do
      let v1 ← evalExpr L env a1
      L.call f [(k1, v1)]
  | .call2 f k1 a1 k2 a2 => do
      let v1 ← evalExpr L env a1
      let v2 ← evalExpr L env a2
      L.call f [(k1, v1), (k2, v2)]
  | .call3 f k1 a1 k2 a2 k3 a3 => do
      let v1 ← evalExpr L env a1
      let v2 ← evalExpr L env a2
      let v3 ← evalExpr L env a3
      L.call f [(k1, v1), (k2, v2), (k3, v3)]
  | .call4 f k1 a1 k2 a2 k3 a3 k4 a4 => do
      let v1 ← evalExpr L env a1
      let v2 ← evalExpr L env a2
      let v3 ← evalExpr L env a3
      let v4 ← evalExpr L env a4
      L.call f [(k1, v1), (k2, v2), (k3, v3), (k4, v4)]
  | .mcall0 o m => do
      let vo ← evalExpr L env o
      L.mcall vo m []
  | .mcall3 o m k1 a1 k2 a2 k3 a3 => do
      let vo ← evalExpr L env o
      let v1 ← evalExpr L env a1
      let v2 ← evalExpr L env a2
      let v3 ← evalExpr L env a3
      L.mcall vo m [(k1, v1), (k2, v2), (k3, v3)]
  | .add a b => do
      let va ← evalExpr L env a
      let vb ← evalExpr L env b
      L.addV va vb
  | .mul a b => do
      let va ← evalExpr L env a
      let vb ← evalExpr L env b
      L.mulV va vb
  | .dictConst e l => do
      let v ← evalExpr L env e
      .ok (L.dictV v l)

/-- Observable events of a run: a name being bound to a value, a string
being printed, a loop printing (components of) a value. -/
inductive Ev (V : Type) where
  | bound : String → V → Ev V
  | printedS : String → Ev V
  | printed : V → Ev V
deriving Repr

/-- Run one statement: the trace of events it emits, and either the
updated environment or a raised error. -/
def runStmt {V : Type} (L : Lib V) (env : List (String × V)) :
    Stmt → List (Ev V) × Except String (List (String × V))
  | .importAs _ _ => ([], .ok env)
  | .importStar _ => ([], .ok env)
  | .assign x e =>
      match evalExpr L env e with
      | .error err => ([], .error err)
      | .ok v => ([.bound x v], .ok ((x, v) :: env))
  | .printStr s => ([.printedS s], .ok env)
  | .printLoop _ e =>
      match evalExpr L env e with
      | .error err => ([], .error err)
      | .ok v => ([.printed v], .ok env)
  | .defFun _ => ([], .ok env)
  | .tryAssign x e =>
      match evalExpr L env e with
      | .error _ => ([], .ok env)
      | .ok v => ([.bound x v], .ok ((x, v) :: env))

/-- Run a list of statements: an error raised by any statement stops the
run there — the remaining statements are not executed. -/
def runStmts {V : Type} (L : Lib V) :
    List Stmt → List (String × V) →
    List (Ev V) × Except String (List (String × V))
  | [], env => ([], .ok env)
  | s :: rest, env =>
      match runStmt L env s with
      | (evs, .error e) => (evs, .error e)
      | (evs, .ok env') =>
          match runStmts L rest env' with
          | (evs', r) => (evs ++ evs', r)

/-- Run the whole notebook against a library oracle. -/
def runNotebook {V : Type} (L : Lib V) :
    List (Ev V) × Except String (List (String × V)) :=
  runStmts L allStmts []

/-- If running a prefix of the script raises an error, appending further
statements changes nothing: the error aborts the remainder, and the trace
stays that of the failed prefix. -/
theorem runStmts_append_error {V : Type} (L : Lib V) (s1 s2 : List Stmt)
    (env : List (String × V)) (tr : List (Ev V)) (e : String)
    (h : runStmts L s1 env = (tr, .error e)) :
    runStmts L (s1 ++ s2) env = (tr, .error e) := by
  induction s1 generalizing env tr with
  | nil => simp [runStmts] at h
  | cons s rest ih =>
      rw [List.cons_append]
      rw [runStmts] at h ⊢
      cases hs : runStmt L env s with
      | mk evs r =>
          rw [hs] at h
          cases r with
          | error err => exact h
          | ok env' =>
              have h' : (match runStmts L rest env' with
                  | (evs', r) => (evs ++ evs', r)) = (tr, Except.error e) := h
              show (match runStmts L (rest ++ s2) env' with
                  | (evs', r) => (evs ++ evs', r)) = (tr, Except.error e)
              cases hr : runStmts L rest env' with
              | mk evs' r' =>
                  rw [hr] at h'
                  have h'' : (evs ++ evs', r') = (tr, Except.error e) := h'
                  rw [Prod.mk.injEq] at h''
                  obtain ⟨h1, h2⟩ := h''
                  cases r' with
                  | ok z => exact Except.noConfusion h2
                  | error e' =>
                      injection h2 with h2'
                      subst h2'
                      rw [ih env' evs' hr]
                      rw [← h1]

/-- Two libraries with pointwise equal behaviour are equal. -/
theorem Lib.ext_of_pointwise {V : Type} (L1 L2 : Lib V)
    (hcall : ∀ f a, L1.call f a = L2.call f a)
    (hattr : ∀ v a, L1.attr v a = L2.attr v a)
    (hmcall : ∀ v m a, L1.mcall v m a = L2.mcall v m a)
    (hlit : ∀ l, L1.litV l = L2.litV l)
    (hadd : ∀ a b, L1.addV a b = L2.addV a b)
    (hmul : ∀ a b, L1.mulV a b = L2.mulV a b)
    (hdict : ∀ v l, L1.dictV v l = L2.dictV v l) : L1 = L2 := by
  cases L1
  cases L2
  simp only [Lib.mk.injEq]
  exact ⟨funext fun f => funext fun a => hcall f a,
         funext fun v => funext fun a => hattr v a,
         funext fun v => funext fun m => funext fun a => hmcall v m a,
         funext fun l => hlit l,
         funext fun a => funext fun b => hadd a b,
         funext fun a => funext fun b => hmul a b,
         funext fun v => funext fun l => hdict v l⟩

/-- A trivial library over the unit value type (used to instantiate the
generic theorems at a concrete input). -/
def unitLib : Lib Unit where
  call := fun _ _ => .ok ()
  attr := fun _ _ => .ok ()
  mcall := fun _ _ _ => .ok ()
  litV := fun _ => ()
  addV := fun _ _ => .ok ()
  mulV := fun _ _ => .ok ()
  dictV := fun _ _ => ()

/-- A library whose every function call raises. -/
def failLib : Lib Unit :=
  { unitLib with call := fun _ _ => .error "LibraryError" }

example : runStmts failLib [Stmt.assign "x" (.call0 "f")] [] =
    ([], .error "LibraryError") := by rfl

/-! ## Dict comprehension and entangler selection semantics -/

/-- Semantics of the notebook's dict comprehension
`dictConst e lit`: one entry per key of the iterated collection, each
mapped to the same constant. -/
def dictConstSem {α : Type} (ks : List α) (v : Lit) : List (α × Lit) :=
  ks.map (fun k => (k, v))

/-- A key of the comprehension looks up to the constant. -/
theorem dictConstSem_lookup {α : Type} [BEq α] [LawfulBEq α]
    (ks : List α) (v : Lit) (k : α) (hk : k ∈ ks) :
    (dictConstSem ks v).lookup k = some v := by
  induction ks with
  | nil => cases hk
  | cons a r ih =>
      simp only [dictConstSem, List.map_cons, List.lookup]
      by_cases h : k = a
      · simp [h]
      · have hba : (k == a) = false := by simp [h]
        rw [hba]
        exact ih (by
          cases hk with
          | head => exact absurd rfl h
          | tail _ hm => exact hm)

/-- Modelled from the spec: `get_QCC_entanglers` is implemented in the
repository's `utility` module, whose source is not under `src/`. Per the
spec the groupings arrive gradient-ranked and the requested number of
entanglers is generated from the top of the ranking: the model takes the
first `n` groupings and produces one entangler from each. -/
def get_QCC_entanglers_model {α β : Type} (mkEnt : α → β)
    (ranked : List α) (n : Nat) : List β :=
  (ranked.take n).map mkEnt

/-! ## The claims -/

/-- C1: For each of the two workflows (UCC: cells 1, 3 and 5; QCC:
cells 7 and 9), the realized pipeline-stage sequence is exactly
(1) molecule geometry/basis configuration via `get_molecular_data` and
`tq.quantumchemistry.Molecule`, (2) Hamiltonian construction via
`make_hamiltonian`, (3) ansatz construction (`make_uccsd_ansatz`,
resp. `construct_QMF_ansatz` + `construct_QCC_ansatz`),
(4) `tq.ExpectationValue`, (5) `tq.minimize` — no stage skipped,
repeated, or reordered. -/
theorem c1_pipeline_stage_order :
    stageSeq (cell1 ++ cell3 ++ cell5) =
      [.geometry, .hamiltonian, .ansatz, .expectation, .minimize] ∧
    stageSeq (cell7 ++ cell9) =
      [.geometry, .hamiltonian, .ansatz, .expectation, .minimize] :=
  ⟨by decide, by decide⟩

/-- C2: the notebook runs exactly two `tq.minimize` energy minimizations,
one over the UCCSD ansatz (built with `initial_amplitudes='mp2'`, the
shared threshold `1e-6`, and `trotter_steps=1`) and one over the QCC
ansatz (QMF mean-field part plus entangler part), each wrapped in a
`tq.ExpectationValue` of the molecular Hamiltonian. -/
theorem c2_two_ansatz_vqe :
    (allStmts.filter isMinimizeStmt).length = 2 ∧
    uccEnv.lookup "U_UCCSD" = some uccsdExpr ∧
    uccEnv.lookup "E" = some uccObjExpr ∧
    qccEnv.lookup "U_QCC" = some qccUExpr ∧
    qccEnv.lookup "E" = some qccObjExpr ∧
    uccEnv.lookup "result" = some (.call4 "tq.minimize"
      (some "objective") uccObjExpr
      (some "method") (.lit (.str "BFGS"))
      (some "initial_values")
        (.dictConst (.mcall0 uccObjExpr "extract_variables") (.sci 0 0))
      (some "tol") (.lit (.sci 1 (-6)))) ∧
    qccEnv.lookup "result" = some (.call4 "tq.minimize"
      (some "objective") qccObjExpr
      (some "method") (.lit (.str "BFGS"))
      (some "initial_values") qccInitValsExpr
      (some "tol") (.lit (.sci 1 (-6)))) :=
  ⟨by decide, rfl, rfl, rfl, rfl, rfl, rfl⟩

/-- C3: every computational hard part the notebook invokes (Hamiltonian
construction, Trotterized UCCSD compilation, gradient-based entangler
ranking, expectation-value evaluation, classical optimization) is a call
resolving to an external library module, each hard part does occur in the
notebook, and the notebook defines no function of its own. -/
theorem c3_hard_parts_external :
    (allCallFns.filter hardPartFns.contains).all fnExternal = true ∧
    hardPartFns.all (fun f => allCallFns.contains f) = true ∧
    allStmts.all (fun s => !(isDefFunStmt s)) = true :=
  ⟨by decide, by decide, by decide⟩

/-- C4 counterexample: the notebook's executable logic is NOT contained
in exactly two code cells — five of its code cells contain statements. -/
theorem c4_counterexample_two_cells :
    ¬ ((codeCells.filter hasLogic).length = 2) := by decide

/-- C4 (amended): all executable logic of the repository consists of
sequential imports, assignments of library-call expressions and print
statements located inside exactly five code cells (two setup cells, the
UCC VQE cell, the QCC ranking cell, and the QCC VQE cell), and nothing
else. -/
theorem c4_logic_in_five_cells :
    (codeCells.filter hasLogic).length = 5 ∧
    allStmts.all isSimpleStmt = true :=
  ⟨by decide, by decide⟩

/-- C5: the notebook contains no exception-handling statement, and in
the interpreter an error raised while running any prefix of the script
aborts the remainder: the statements appended after the failing prefix
contribute nothing to the trace and the error is the final result. -/
theorem c5_no_failure_recovery :
    (allStmts.all (fun s => !(isTryStmt s)) = true) ∧
    (∀ (V : Type) (L : Lib V) (s1 s2 : List Stmt)
      (env : List (String × V)) (tr : List (Ev V)) (e : String),
      runStmts L s1 env = (tr, .error e) →
      runStmts L (s1 ++ s2) env = (tr, .error e)) :=
  ⟨by decide,
   fun _ L s1 s2 env tr e h => runStmts_append_error L s1 s2 env tr e h⟩

/-- C5 witness: with a library whose calls raise, the one-statement
prefix fails, and appending a further statement leaves the trace and the
error unchanged. -/
theorem c5_no_failure_recovery_witness :
    runStmts failLib [Stmt.assign "x" (.call0 "f")] [] =
      ([], .error "LibraryError") ∧
    runStmts failLib
        ([Stmt.assign "x" (.call0 "f")] ++ [Stmt.assign "y" (.call0 "g")]) [] =
      ([], .error "LibraryError") :=
  ⟨rfl,
   c5_no_failure_recovery.2 Unit failLib
     [Stmt.assign "x" (.call0 "f")] [Stmt.assign "y" (.call0 "g")]
     [] [] "LibraryError" rfl⟩

/-- C6: the notebook is a deterministic straight-line program: two runs
against pointwise-identical library behaviour produce identical event
traces (bindings and printed values) and identical results; and the
fixed constants are bound as `threshold = 1e-6`, `trotter_steps = 1`,
`n_ents = 1`, `basis = 'sto-3g'`. -/
theorem c6_deterministic_run :
    (∀ (V : Type) (L1 L2 : Lib V),
      (∀ f a, L1.call f a = L2.call f a) →
      (∀ v a, L1.attr v a = L2.attr v a) →
      (∀ v m a, L1.mcall v m a = L2.mcall v m a) →
      (∀ l, L1.litV l = L2.litV l) →
      (∀ a b, L1.addV a b = L2.addV a b) →
      (∀ a b, L1.mulV a b = L2.mulV a b) →
      (∀ v l, L1.dictV v l = L2.dictV v l) →
      runNotebook L1 = runNotebook L2) ∧
    qccEnv.lookup "threshold" = some (.lit (.sci 1 (-6))) ∧
    qccEnv.lookup "trotter_steps" = some (.lit (.int 1)) ∧
    qccEnv.lookup "n_ents" = some (.lit (.int 1)) ∧
    qccEnv.lookup "basis" = some (.lit (.str "sto-3g")) := by
  refine ⟨?_, rfl, rfl, rfl, rfl⟩
  intro V L1 L2 h1 h2 h3 h4 h5 h6 h7
  rw [Lib.ext_of_pointwise L1 L2 h1 h2 h3 h4 h5 h6 h7]

/-- C6 witness: the determinism conjunct applied to a concrete library. -/
theorem c6_deterministic_run_witness :
    runNotebook unitLib = runNotebook unitLib :=
  c6_deterministic_run.1 Unit unitLib unitLib
    (fun _ _ => rfl) (fun _ _ => rfl) (fun _ _ _ => rfl) (fun _ => rfl)
    (fun _ _ => rfl) (fun _ _ => rfl) (fun _ _ => rfl)

/-- C7: the UCC `tq.minimize` call (the last statement of the UCC cell)
uses method `"BFGS"`, tolerance `1e-6`, and an initial-values dictionary
built by comprehension over `E.extract_variables()`; the comprehension's
semantics has one entry per extracted variable, and every key looks up
to `0.0`. -/
theorem c7_ucc_minimize_arguments :
    cell5.getLast? = some (.assign "result"
      (.call4 "tq.minimize"
        (some "objective") (.var "E")
        (some "method") (.lit (.str "BFGS"))
        (some "initial_values")
          (.dictConst (.mcall0 (.var "E") "extract_variables") (.sci 0 0))
        (some "tol") (.lit (.sci 1 (-6))))) ∧
    (∀ (ks : List String),
      (dictConstSem ks (Lit.sci 0 0)).length = ks.length) ∧
    (∀ (ks : List String) (k : String), k ∈ ks →
      (dictConstSem ks (Lit.sci 0 0)).lookup k = some (Lit.sci 0 0)) :=
  ⟨rfl,
   fun ks => by simp [dictConstSem],
   fun ks k hk => dictConstSem_lookup ks (Lit.sci 0 0) k hk⟩

/-- C7 witness: a concrete variable list. -/
theorem c7_ucc_minimize_arguments_witness :
    (dictConstSem ["tau_0"] (Lit.sci 0 0)).lookup "tau_0" =
      some (Lit.sci 0 0) :=
  c7_ucc_minimize_arguments.2.2 ["tau_0"] "tau_0" (by decide)

/-- C8: the UCC and QCC workflows build the molecule and Hamiltonian
from identical inputs, so the resolved Hamiltonian construction is the
same expression `hExpr` in both workflows, and this same expression is
the `H` argument of both expectation-value objectives. -/
theorem c8_same_hamiltonian_construction :
    uccEnv.lookup "H" = some hExpr ∧
    envAfterCell7.lookup "H" = some hExpr ∧
    uccEnv.lookup "E" =
      some (.call2 "tq.ExpectationValue" (some "H") hExpr
        (some "U") uccsdExpr) ∧
    qccEnv.lookup "E" =
      some (.call2 "tq.ExpectationValue" (some "H") hExpr
        (some "U") qccUExpr) :=
  ⟨rfl, rfl, rfl, rfl⟩

/-- C9: the QCC circuit is composed as mean-field part followed by
entangling part (`U_QCC = U_MF + U_ENT`), the mean-field ansatz is built
on `2 * molecule.n_orbitals` qubits, the entangler list is requested
with `n_ents = 1` from the gradient-ranked groupings (and, per the
modelled selection semantics, taking one entangler from the top grouping
of any nonempty ranking), and the initial parameter values are produced
by `init_qcc_params` from `hf_occ(2*molecule.n_orbitals,
molecule.n_electrons)`. -/
theorem c9_qcc_ansatz_composition :
    qccEnv.lookup "U_MF" = some qmfExpr ∧
    qccEnv.lookup "U_ENT" = some qccEntExpr ∧
    qccEnv.lookup "U_QCC" = some (.add qmfExpr qccEntExpr) ∧
    qmfExpr = .call1 "construct_QMF_ansatz" (some "n_qubits") nQubitsExpr ∧
    qccEnv.lookup "entanglers" =
      some (.call3 "get_QCC_entanglers"
        none rankedExpr none (.lit (.int 1)) none nQubitsExpr) ∧
    qccEnv.lookup "initial_vals" =
      some (.call2 "init_qcc_params"
        none hfRefExpr none (.mcall0 qccObjExpr "extract_variables")) ∧
    hfRefExpr =
      .call2 "hf_occ" none nQubitsExpr
        none (.attr moleculeExpr "n_electrons") ∧
    (∀ (α β : Type) (mkEnt : α → β) (g : α) (rest : List α),
      get_QCC_entanglers_model mkEnt (g :: rest) 1 = [mkEnt g]) :=
  ⟨rfl, rfl, rfl, rfl, rfl, rfl, rfl,
   fun _ _ mkEnt g rest => by simp [get_QCC_entanglers_model]⟩
